import Mathlib

/-!
# Verification of the SSO session/token core

A shallow embedding of the session and token plane of the SSO backend:
the relational data model (users, applications, auth-provider bindings),
the Redis-backed application-session store and SSO-session store, the
JWT token service, and the login / SSO-exchange / refresh flows, together
with proofs about the properties the specification claims.

Modelling conventions:
* Redis is modelled as total functions from keys to optional values; Redis
  sets are modelled as duplicate-free lists of members.
* JWT token strings are modelled by their claim records (`TokenClaims`):
  the compact serialization is injective and signing/verification with the
  single process key pair succeeds exactly on self-issued tokens.  A token
  with a bad signature therefore has no representative; all represented
  tokens are validly signed.
* SHA-256 (an external library call, `hashlib`) is modelled as an abstract
  hash function passed explicitly to every operation that hashes, exactly
  where the source calls `_hash_token`.  Collision-freedom, where a claim
  needs it, is an explicit hypothesis.
* `datetime` timestamps are modelled as natural numbers (seconds since
  epoch); `uuid.uuid4()` results are passed in as explicit parameters;
  TTL bookkeeping is modelled only where a claim depends on it (the SSO
  store); asynchronous execution is sequentialized (every operation in the
  source awaits its Redis calls in program order).
* Python truthiness on optional strings (`if x:`) is `strTruthy`; the
  f-string rendering of an optional (`None` prints as "None") is `pyStr`.
-/

namespace SSOCore

deriving instance DecidableEq for Except

/-- Python truthiness of an `Optional[str]`: `None` and `""` are falsy. -/
def strTruthy : Option String → Bool
  | none => false
  | some s => s ≠ ""

/-- Python f-string rendering of an `Optional[str]`: `None` renders as "None". -/
def pyStr : Option String → String
  | none => "None"
  | some s => s

/-- Pointwise update of a function-modelled key/value map. -/
def fupd {α β : Type} [DecidableEq α] (f : α → β) (k : α) (v : β) : α → β :=
  fun x => if x = k then v else f x

/-- The exception taxonomy raised by the flows (`app.core.exceptions`),
plus the `DataError` the redis client raises when asked to store `None`
as a set member. -/
inductive AppError where
  | unauthorized (msg : String)
  | notFound (msg : String)
  | forbidden (msg : String)
  | badRequest (msg : String)
  | dataError (msg : String)
deriving Repr, DecidableEq

/-! ## Relational data model (`users`, `applications`, `user_applications`,
`auth_providers`) -/

/-- Row of `applications` (`app.modules.applications.models.application`). -/
structure Application where
  id : String
  name : String
  code : String
  is_active : Bool
  single_session : Bool
  deleted_at : Option Nat := none
deriving Repr, DecidableEq

/-- Row of `users` (`app.modules.users.models.user`). -/
structure User where
  id : String
  name : String
  email : Option String := none
  phone : Option String := none
  avatar_path : Option String := none
  status : String := "active"
  role : String := "user"
  deleted_at : Option Nat := none
deriving Repr, DecidableEq

/-- Row of `auth_providers` (`app.modules.auth.models.auth_provider`). -/
structure AuthProviderRow where
  user_id : String
  provider : String
  provider_user_id : String
  password_hash : Option String := none
deriving Repr, DecidableEq

/-- The relational database: the three tables the auth flows read, plus the
`user_applications` association table as a list of
`(user_id, application_id)` pairs. -/
structure Db where
  users : List User
  apps : List Application
  user_applications : List (String × String)
  auth_providers : List AuthProviderRow
deriving Repr

/-- Primary-key wellformedness of `applications` (`id` is the primary key). -/
def Db.appsWF (db : Db) : Prop :=
  ∀ a ∈ db.apps, ∀ b ∈ db.apps, a.id = b.id → a = b

instance (db : Db) : Decidable db.appsWF := by
  unfold Db.appsWF; infer_instance

/-- `UserQueries.get_by_id`: `select(User).where(User.id == user_id,
User.deleted_at.is_(None))`. -/
def UserQueries.get_by_id (db : Db) (user_id : String) : Option User :=
  db.users.find? fun u => u.id == user_id && u.deleted_at == none

/-- `UserQueries.get_by_email`: `select(User).where(User.email == email,
User.deleted_at.is_(None))`. -/
def UserQueries.get_by_email (db : Db) (email : String) : Option User :=
  db.users.find? fun u => u.email == some email && u.deleted_at == none

/-- `ApplicationQueries.get_by_code`: `select(Application).where(
Application.code == code, Application.deleted_at.is_(None))`. -/
def ApplicationQueries.get_by_code (db : Db) (code : String) : Option Application :=
  db.apps.find? fun a => a.code == code && a.deleted_at == none

/-- `ApplicationQueries.get_user_applications`: `select(Application)
.join(UserApplication).where(UserApplication.user_id == user_id,
Application.deleted_at.is_(None))`. -/
def ApplicationQueries.get_user_applications (db : Db) (user_id : String) :
    List Application :=
  db.apps.filter fun a =>
    db.user_applications.contains (user_id, a.id) && a.deleted_at == none

/-- The ORM relationship `User.applications` (secondary join through
`user_applications`, no soft-delete filter on the relationship itself). -/
def User.applications (db : Db) (u : User) : List Application :=
  db.apps.filter fun a => db.user_applications.contains (u.id, a.id)

/-- `AuthProviderQueries.get_by_provider_user_id`: select the binding by
`(provider, provider_user_id)` joined against a non-soft-deleted `User`. -/
def AuthProviderQueries.get_by_provider_user_id (db : Db)
    (provider provider_user_id : String) : Option AuthProviderRow :=
  db.auth_providers.find? fun ap =>
    ap.provider == provider && ap.provider_user_id == provider_user_id &&
      db.users.any fun u => u.id == ap.user_id && u.deleted_at == none

/-! ## Token codec (`app.core.security.jwt.TokenService`) -/

/-- Settings defaults (`app.config.settings`). -/
def ACCESS_TOKEN_EXPIRE_MINUTES : Nat := 30

def REFRESH_TOKEN_EXPIRE_DAYS : Nat := 60

def MAX_ACTIVE_SESSIONS : Nat := 5

inductive TokenType where
  | access
  | refresh
deriving Repr, DecidableEq

def TokenType.str : TokenType → String
  | .access => "access"
  | .refresh => "refresh"

/-- The claim set of a signed JWT.  A token string is represented by its
claims: the compact serialization is injective and all represented tokens
carry a valid signature from the single process key. -/
structure TokenClaims where
  sub : String
  role : String
  name : Option String := none
  email : Option String := none
  avatar_url : Option String := none
  type : TokenType
  exp : Nat
  iat : Nat
  client_id : Option String := none
  device_id : Option String := none
  allowed_apps : Option (List String) := none
deriving Repr, DecidableEq

/-- `TokenService.create_access_token`.  The two call sites pass
`extra_claims` of shape `{allowed_apps, client_id?}`; the dict merge is
modelled by the two explicit optional arguments. -/
def TokenService.create_access_token (user_id role : String)
    (name email avatar_url : Option String)
    (allowed_apps : Option (List String)) (client_id : Option String)
    (now : Nat) : TokenClaims :=
  { sub := user_id, role := role, name := name, email := email,
    avatar_url := avatar_url, type := .access,
    exp := now + ACCESS_TOKEN_EXPIRE_MINUTES * 60, iat := now,
    client_id := client_id, allowed_apps := allowed_apps }

/-- `TokenService.create_refresh_token`.  `client_id` and `device_id` enter
the payload only when truthy (`if client_id:` / `if device_id:`). -/
def TokenService.create_refresh_token (user_id role : String)
    (name : Option String) (client_id device_id : Option String)
    (now : Nat) : TokenClaims :=
  { sub := user_id, role := role, name := name, type := .refresh,
    exp := now + REFRESH_TOKEN_EXPIRE_DAYS * 24 * 60 * 60, iat := now,
    client_id := if strTruthy client_id then client_id else none,
    device_id := if strTruthy device_id then device_id else none }

/-- `TokenService.verify_token`.  `jose.jwt.decode` verifies the signature
and the `exp` claim (raising `JWTError`, caught and re-raised as the
"Invalid token: ..." `UnauthorizedException`); only then does the source
compare the `type` claim. -/
def TokenService.verify_token (token : TokenClaims) (token_type : TokenType)
    (now : Nat) : Except AppError TokenClaims :=
  if token.exp < now then
    .error (.unauthorized "Invalid token: Signature has expired.")
  else if token.type ≠ token_type then
    .error (.unauthorized ("Invalid token type, expected " ++ token_type.str))
  else
    .ok token

/-! ## Application session store
(`app.modules.auth.services.session_service.SessionService`) -/

/-- The JSON blob stored under `session:{user_id}:{client_id}:{device_id}`. -/
structure SessionData where
  user_id : String
  client_id : String
  device_id : Option String
  refresh_token_hash : String
  device_info : List (String × String) := []
  ip_address : Option String := none
  fcm_token : Option String := none
  created_at : Nat
  last_activity : Nat
deriving Repr, DecidableEq

/-- The Redis keyspace used by `SessionService`:
`session:{u}:{c}:{d}` primaries, the `client_sessions:{u}:{c}` device-id
sets and the `user_sessions:{u}` sets of `"{client}:{device}"` strings. -/
structure SessionStore where
  sessions : String × String × String → Option SessionData
  clientSessions : String × String → List String
  userSessions : String → List String

/-- The empty cache. -/
def SessionStore.empty : SessionStore :=
  { sessions := fun _ => none, clientSessions := fun _ => [],
    userSessions := fun _ => [] }

/-- Redis `SADD`: add a member to a set, ignoring duplicates. -/
def sadd (s : List String) (x : String) : List String :=
  if s.contains x then s else x :: s

/-- Redis `SREM`: remove a member from a set. -/
def srem (s : List String) (x : String) : List String :=
  s.filter fun y => y ≠ x

/-- `SessionService.get_session`. -/
def SessionService.get_session (st : SessionStore)
    (user_id client_id device_id : String) : Option SessionData :=
  st.sessions (user_id, client_id, device_id)

/-- `SessionService.get_client_sessions`: `SMEMBERS` of the per-client
index, then load each primary, skipping entries whose primaries are gone. -/
def SessionService.get_client_sessions (st : SessionStore)
    (user_id client_id : String) : List SessionData :=
  (st.clientSessions (user_id, client_id)).filterMap fun d =>
    SessionService.get_session st user_id client_id d

/-- `SessionService.validate_refresh_token`: true iff the session exists and
its stored hash equals the hash of the presented token. -/
def SessionService.validate_refresh_token (h : TokenClaims → String)
    (st : SessionStore) (user_id client_id device_id : String)
    (refresh_token : TokenClaims) : Bool :=
  match SessionService.get_session st user_id client_id device_id with
  | none => false
  | some s => s.refresh_token_hash == h refresh_token

/-- `SessionService.update_session`: rewrite the record with a fresh
`last_activity`, optionally rotating the refresh-token hash and the FCM
token (both only when truthy in the source). -/
def SessionService.update_session (h : TokenClaims → String)
    (st : SessionStore) (user_id client_id device_id : String)
    (refresh_token : Option TokenClaims) (fcm_token : Option String)
    (now : Nat) : SessionStore × Bool :=
  match SessionService.get_session st user_id client_id device_id with
  | none => (st, false)
  | some s =>
    let s1 : SessionData :=
      { s with
        last_activity := now
        refresh_token_hash :=
          match refresh_token with
          | some t => h t
          | none => s.refresh_token_hash
        fcm_token := if strTruthy fcm_token then fcm_token else s.fcm_token }
    ({ st with
        sessions := fupd st.sessions (user_id, client_id, device_id) (some s1) },
      true)

/-- `SessionService.delete_client_device_session`.  The source deletes the
primary, then `SREM`s the device id from both index sets; when the call
site passed `device_id=None` the primary key renders as `...:None` and the
redis client raises `DataError` on `srem(None)` after the primary delete. -/
def SessionService.delete_client_device_session (st : SessionStore)
    (user_id client_id : String) (device_id : Option String) :
    SessionStore × Except AppError Bool :=
  let st1 : SessionStore :=
    { st with
      sessions :=
        fupd st.sessions (user_id, client_id, pyStr device_id) none }
  match device_id with
  | none => (st1, .error (.dataError "Invalid input of type NoneType"))
  | some d =>
    ({ st1 with
        clientSessions :=
          fupd st1.clientSessions (user_id, client_id)
            (srem (st1.clientSessions (user_id, client_id)) d)
        userSessions :=
          fupd st1.userSessions user_id
            (srem (st1.userSessions user_id) (client_id ++ ":" ++ d)) },
      .ok true)

/-- `SessionService.create_session`.  Reads the live sessions for
`(user, client)`, applies the single-session and max-session policies, then
writes the primary record (keyed with the f-string rendering of
`device_id`) and both index entries.  `SADD`ing a `None` device id raises
`DataError` in the redis client, after the primary `SETEX` has happened. -/
def SessionService.create_session (h : TokenClaims → String)
    (st : SessionStore) (user_id client_id : String)
    (refresh_token : TokenClaims) (single_session : Bool)
    (device_id : Option String) (device_info : List (String × String))
    (ip_address : Option String) (fcm_token : Option String)
    (now : Nat) : SessionStore × Except AppError (Option String) :=
  let existing_sessions := SessionService.get_client_sessions st user_id client_id
  let existing_device_ids := existing_sessions.map (·.device_id)
  let is_same_device := existing_device_ids.contains device_id
  if single_session && (existing_sessions.length > 0 && !is_same_device) then
    (st, .error (.badRequest
      "Anda sudah login di perangkat lain. Silakan logout terlebih dahulu."))
  else
    let st := if single_session && is_same_device then
        (SessionService.delete_client_device_session st user_id client_id
          device_id).1
      else st
    let st := if !single_session &&
        decide (existing_sessions.length ≥ MAX_ACTIVE_SESSIONS) then
        (SessionService.delete_client_device_session st user_id client_id
          device_id).1
      else st
    let session_data : SessionData :=
      { user_id := user_id, client_id := client_id, device_id := device_id,
        refresh_token_hash := h refresh_token, device_info := device_info,
        ip_address := ip_address, fcm_token := fcm_token,
        created_at := now, last_activity := now }
    let st : SessionStore :=
      { st with
        sessions :=
          fupd st.sessions (user_id, client_id, pyStr device_id)
            (some session_data) }
    match device_id with
    | none => (st, .error (.dataError "Invalid input of type NoneType"))
    | some d =>
      let st : SessionStore :=
        { st with
          clientSessions :=
            fupd st.clientSessions (user_id, client_id)
              (sadd (st.clientSessions (user_id, client_id)) d)
          userSessions :=
            fupd st.userSessions user_id
              (sadd (st.userSessions user_id) (client_id ++ ":" ++ d)) }
      (st, .ok device_id)

/-! ## SSO session store
(`app.modules.auth.services.sso_session_service.SSOSessionService`) -/

def SSO_TTL : Nat := 30 * 24 * 60 * 60

/-- The JSON blob stored under `sso:{user_id}`. -/
structure SSORecord where
  user_id : String
  token_hash : String
  ip_address : Option String := none
  created_at : Nat
  last_activity : Nat
deriving Repr, DecidableEq

/-- The SSO keyspace: `sso:{user}` primaries with their remaining TTL
(`-2` when the key is absent, as Redis reports), and the reverse
`sso_token:{hash} -> user_id` pointers. -/
structure SSOStore where
  sso : String → Option SSORecord
  ssoTtl : String → Int
  ssoToken : String → Option String

def SSOStore.empty : SSOStore :=
  { sso := fun _ => none, ssoTtl := fun _ => -2, ssoToken := fun _ => none }

/-- `SSOSessionService.get_sso_session_by_user`. -/
def SSOSessionService.get_sso_session_by_user (st : SSOStore)
    (user_id : String) : Option SSORecord :=
  st.sso user_id

/-- `SSOSessionService._delete_sso_session_internal`: drop the reverse
pointer (when the record exists and carries a truthy hash), then drop the
primary. -/
def SSOSessionService.delete_sso_session_internal (st : SSOStore)
    (user_id : String) : SSOStore :=
  let st :=
    match SSOSessionService.get_sso_session_by_user st user_id with
    | some session =>
      if strTruthy (some session.token_hash) then
        { st with ssoToken := fupd st.ssoToken session.token_hash none }
      else st
    | none => st
  { st with
    sso := fupd st.sso user_id none
    ssoTtl := fupd st.ssoTtl user_id (-2) }

/-- `SSOSessionService.create_sso_session`.  The fresh `uuid4` token is the
explicit `newToken` parameter; any existing session for the user is deleted
first, then both keys are written with the full TTL. -/
def SSOSessionService.create_sso_session (h : String → String)
    (st : SSOStore) (user_id : String) (ip_address : Option String)
    (newToken : String) (now : Nat) : SSOStore × String :=
  let st :=
    match SSOSessionService.get_sso_session_by_user st user_id with
    | some _ => SSOSessionService.delete_sso_session_internal st user_id
    | none => st
  let token_hash := h newToken
  let session_data : SSORecord :=
    { user_id := user_id, token_hash := token_hash, ip_address := ip_address,
      created_at := now, last_activity := now }
  let st : SSOStore :=
    { st with
      sso := fupd st.sso user_id (some session_data)
      ssoTtl := fupd st.ssoTtl user_id (Int.ofNat SSO_TTL)
      ssoToken := fupd st.ssoToken token_hash (some user_id) }
  (st, newToken)

/-- `SSOSessionService._update_last_activity`: bump `last_activity` and
re-`SETEX` with the remaining TTL, only when a positive TTL remains. -/
def SSOSessionService.update_last_activity (st : SSOStore)
    (user_id : String) (session : SSORecord) (now : Nat) : SSOStore :=
  let session1 := { session with last_activity := now }
  if st.ssoTtl user_id > 0 then
    { st with sso := fupd st.sso user_id (some session1) }
  else st

/-- `SSOSessionService.validate_sso_token`: resolve the reverse pointer,
load the primary, reject unless the stored hash equals the hash of the
presented token, then bump activity.  The returned record is the (already
bumped) session dict the source returns. -/
def SSOSessionService.validate_sso_token (h : String → String)
    (st : SSOStore) (sso_token : String) (now : Nat) :
    SSOStore × Option SSORecord :=
  let token_hash := h sso_token
  match st.ssoToken token_hash with
  | none => (st, none)
  | some user_id =>
    if user_id = "" then (st, none)
    else
      match SSOSessionService.get_sso_session_by_user st user_id with
      | none => (st, none)
      | some session =>
        if session.token_hash ≠ token_hash then (st, none)
        else
          (SSOSessionService.update_last_activity st user_id session now,
            some { session with last_activity := now })

/-- `SSOSessionService.delete_sso_session`. -/
def SSOSessionService.delete_sso_session (st : SSOStore)
    (user_id : String) : SSOStore × Bool :=
  match SSOSessionService.get_sso_session_by_user st user_id with
  | none => (st, false)
  | some _ =>
    (SSOSessionService.delete_sso_session_internal st user_id, true)

/-! ## Response schemas (`app.modules.auth.schemas.responses`) -/

structure AllowedApp where
  id : String
  code : String
  name : String
deriving Repr, DecidableEq

structure UserData where
  id : String
  role : String
  name : Option String := none
  email : Option String := none
  avatar_url : Option String := none
  allowed_apps : List AllowedApp := []
deriving Repr, DecidableEq

/-- The unified `LoginResponse`. -/
structure LoginResponse where
  sso_token : String
  access_token : Option TokenClaims := none
  refresh_token : Option TokenClaims := none
  device_id : Option String := none
  token_type : String := "bearer"
  expires_in : Option Nat := none
  user : UserData
deriving Repr, DecidableEq

structure RefreshResponse where
  access_token : TokenClaims
  refresh_token : TokenClaims
  token_type : String := "bearer"
  expires_in : Nat
deriving Repr, DecidableEq

/-- `generate_signed_url_for_path` is out-of-scope object-storage URL
signing; the produced URL is opaque to every flow, so it is modelled as the
stored path itself. -/
def generate_signed_url_for_path (p : String) : String := p

/-! ## Client validator (`app.modules.auth.utils.client_validator`) -/

/-- `ClientValidator.validate_client_access`: `None` client skips
validation (SSO-only); otherwise the application must exist by code, be
active, and appear among the user's linked applications. -/
def ClientValidator.validate_client_access (db : Db) (user_id : String)
    (client_id : Option String) : Except AppError (Option Application) :=
  match client_id with
  | none => .ok none
  | some cid =>
    match ApplicationQueries.get_by_code db cid with
    | none =>
      .error (.notFound ("Aplikasi " ++ cid ++ " tidak ditemukan atau tidak aktif"))
    | some app =>
      if !app.is_active then
        .error (.notFound ("Aplikasi " ++ cid ++ " tidak ditemukan atau tidak aktif"))
      else
        let user_app_ids :=
          (ApplicationQueries.get_user_applications db user_id).map (·.id)
        if !user_app_ids.contains app.id then
          .error (.forbidden ("User tidak memiliki akses ke aplikasi " ++ cid))
        else
          .ok (some app)

/-! ## Token helper (`app.modules.auth.utils.token_helper.TokenHelper`) -/

/-- `TokenHelper.extract_allowed_apps_from_user`: the user's linked
applications (ORM relationship) that are active, as `AllowedApp` models and
as the code list. -/
def TokenHelper.extract_allowed_apps_from_user (db : Db) (user : User) :
    List AllowedApp × List String :=
  let active := (User.applications db user).filter (·.is_active)
  (active.map fun a => { id := a.id, code := a.code, name := a.name },
    active.map (·.code))

/-- `TokenHelper.create_login_response`.  Creates the SSO session, then for
an SSO-only login signs portal tokens without touching the session store;
for an app login signs a provisional refresh token, creates the app
session, re-signs the refresh token with the effective device id and
rotates the stored hash.  `h` models SHA-256 over refresh-token strings,
`hSso` over SSO tokens; `newSsoToken` is the `uuid4` the SSO store
generates. -/
def TokenHelper.create_login_response (h : TokenClaims → String)
    (hSso : String → String) (db : Db) (st : SessionStore) (sst : SSOStore)
    (user : User) (client_id : Option String) (single_session : Bool)
    (device_id : Option String) (device_info : List (String × String))
    (ip_address : Option String) (fcm_token : Option String)
    (newSsoToken : String) (now : Nat) :
    SessionStore × SSOStore × Except AppError LoginResponse :=
  let codes := (TokenHelper.extract_allowed_apps_from_user db user).2
  let allowed_apps := (TokenHelper.extract_allowed_apps_from_user db user).1
  let ssoResult :=
    SSOSessionService.create_sso_session hSso sst user.id ip_address
      newSsoToken now
  let sst := ssoResult.1
  let sso_token := ssoResult.2
  let avatar_url := user.avatar_path.map generate_signed_url_for_path
  let user_data : UserData :=
    { id := user.id, role := user.role, name := some user.name,
      email := user.email, avatar_url := avatar_url,
      allowed_apps := allowed_apps }
  match client_id with
  | none =>
    let access_token :=
      TokenService.create_access_token user.id user.role (some user.name)
        user.email avatar_url (some codes) none now
    let refresh_token :=
      TokenService.create_refresh_token user.id user.role (some user.name)
        none none now
    (st, sst, .ok
      { sso_token := sso_token, access_token := some access_token,
        refresh_token := some refresh_token, device_id := none,
        expires_in := some (ACCESS_TOKEN_EXPIRE_MINUTES * 60),
        user := user_data })
  | some cid =>
    let access_token :=
      TokenService.create_access_token user.id user.role (some user.name)
        user.email avatar_url (some codes) (some cid) now
    let refresh_token0 :=
      TokenService.create_refresh_token user.id user.role (some user.name)
        (some cid) none now
    let created :=
      SessionService.create_session h st user.id cid refresh_token0
        single_session device_id device_info ip_address fcm_token now
    match created with
    | (st, .error e) => (st, sst, .error e)
    | (st, .ok dev) =>
      let refresh_token1 :=
        TokenService.create_refresh_token user.id user.role (some user.name)
          (some cid) dev now
      let updated :=
        SessionService.update_session h st user.id cid (pyStr dev)
          (some refresh_token1) none now
      (updated.1, sst, .ok
        { sso_token := sso_token, access_token := some access_token,
          refresh_token := some refresh_token1, device_id := dev,
          expires_in := some (ACCESS_TOKEN_EXPIRE_MINUTES * 60),
          user := user_data })

/-- `TokenHelper.create_app_tokens_for_exchange`: the app-login tail of
`create_login_response` without recreating the SSO session. -/
def TokenHelper.create_app_tokens_for_exchange (h : TokenClaims → String)
    (db : Db) (st : SessionStore) (user : User) (client_id : String)
    (sso_token : String) (single_session : Bool)
    (device_id : Option String) (device_info : List (String × String))
    (ip_address : Option String) (fcm_token : Option String)
    (now : Nat) : SessionStore × Except AppError LoginResponse :=
  let codes := (TokenHelper.extract_allowed_apps_from_user db user).2
  let allowed_apps := (TokenHelper.extract_allowed_apps_from_user db user).1
  let avatar_url := user.avatar_path.map generate_signed_url_for_path
  let user_data : UserData :=
    { id := user.id, role := user.role, name := some user.name,
      email := user.email, avatar_url := avatar_url,
      allowed_apps := allowed_apps }
  let access_token :=
    TokenService.create_access_token user.id user.role (some user.name)
      user.email avatar_url (some codes) (some client_id) now
  let refresh_token0 :=
    TokenService.create_refresh_token user.id user.role (some user.name)
      (some client_id) none now
  let created :=
    SessionService.create_session h st user.id client_id refresh_token0
      single_session device_id device_info ip_address fcm_token now
  match created with
  | (st, .error e) => (st, .error e)
  | (st, .ok dev) =>
    let refresh_token1 :=
      TokenService.create_refresh_token user.id user.role (some user.name)
        (some client_id) dev now
    let updated :=
      SessionService.update_session h st user.id client_id (pyStr dev)
        (some refresh_token1) none now
    (updated.1, .ok
      { sso_token := sso_token, access_token := some access_token,
        refresh_token := some refresh_token1, device_id := dev,
        expires_in := some (ACCESS_TOKEN_EXPIRE_MINUTES * 60),
        user := user_data })

/-! ## Flow orchestrator (`app.modules.auth.services.auth_service` and
`email_auth_service`) -/

/-- `AuthService.refresh_token`: verify the refresh token, default the
client id to the `sso_portal` sentinel, enforce device binding, validate
the session hash, reload the user, sign fresh tokens and rotate the stored
hash. -/
def AuthService.refresh_token (h : TokenClaims → String) (db : Db)
    (st : SessionStore) (refresh_token : TokenClaims) (device_id : String)
    (now : Nat) : SessionStore × Except AppError RefreshResponse :=
  match TokenService.verify_token refresh_token .refresh now with
  | .error e => (st, .error e)
  | .ok payload =>
    let user_id := payload.sub
    let client_id := if strTruthy payload.client_id then
        pyStr payload.client_id
      else "sso_portal"
    let token_device_id := payload.device_id
    if user_id = "" then
      (st, .error (.unauthorized "Invalid token payload: missing user_id"))
    else if strTruthy token_device_id && pyStr token_device_id ≠ device_id then
      (st, .error (.unauthorized "Device ID mismatch"))
    else if !SessionService.validate_refresh_token h st user_id client_id
        device_id refresh_token then
      (st, .error (.unauthorized "Invalid refresh token or session expired"))
    else
      match UserQueries.get_by_id db user_id with
      | none => (st, .error (.notFound "User tidak ditemukan"))
      | some user =>
        let codes := (TokenHelper.extract_allowed_apps_from_user db user).2
        let avatar_url := user.avatar_path.map generate_signed_url_for_path
        let new_access_token :=
          TokenService.create_access_token user.id user.role (some user.name)
            user.email avatar_url (some codes) (some client_id) now
        let new_refresh_token :=
          TokenService.create_refresh_token user.id user.role (some user.name)
            (some client_id) (some device_id) now
        let updated :=
          SessionService.update_session h st user_id client_id device_id
            (some new_refresh_token) none now
        (updated.1, .ok
          { access_token := new_access_token,
            refresh_token := new_refresh_token,
            expires_in := ACCESS_TOKEN_EXPIRE_MINUTES * 60 })

/-- `AuthService.exchange_sso_token`: validate the SSO token, reload the
user, gate on the application (exists, active, linked to the user), then
issue app tokens without rotating the SSO session. -/
def AuthService.exchange_sso_token (h : TokenClaims → String)
    (hSso : String → String) (db : Db) (st : SessionStore) (sst : SSOStore)
    (sso_token : String) (client_id : String) (device_id : Option String)
    (device_info : List (String × String)) (ip_address : Option String)
    (fcm_token : Option String) (now : Nat) :
    SessionStore × SSOStore × Except AppError LoginResponse :=
  let validated := SSOSessionService.validate_sso_token hSso sst sso_token now
  let sst := validated.1
  match validated.2 with
  | none =>
    (st, sst, .error (.unauthorized "SSO session tidak valid atau sudah expired"))
  | some sso_session =>
    let user_id := sso_session.user_id
    match UserQueries.get_by_id db user_id with
    | none => (st, sst, .error (.notFound "User tidak ditemukan"))
    | some user =>
      match ApplicationQueries.get_by_code db client_id with
      | none =>
        (st, sst, .error (.notFound
          ("Aplikasi " ++ client_id ++ " tidak ditemukan atau tidak aktif")))
      | some app =>
        if !app.is_active then
          (st, sst, .error (.notFound
            ("Aplikasi " ++ client_id ++ " tidak ditemukan atau tidak aktif")))
        else
          let user_app_ids :=
            (ApplicationQueries.get_user_applications db user_id).map (·.id)
          if !user_app_ids.contains app.id then
            (st, sst, .error (.forbidden
              ("User tidak memiliki akses ke aplikasi " ++ client_id)))
          else
            let r :=
              TokenHelper.create_app_tokens_for_exchange h db st user
                client_id sso_token app.single_session device_id device_info
                ip_address fcm_token now
            (r.1, sst, r.2)

/-- `EmailAuthService.login`: resolve the user by email, locate the email
binding, verify the password (bcrypt verification is the abstract
`verify_password` parameter), gate on the requested client, then hand off
to `create_login_response`.  The `update_last_used` write on the binding is
a relational side effect none of the claims observe and is not modelled. -/
def EmailAuthService.login (h : TokenClaims → String)
    (hSso : String → String) (verify_password : String → String → Bool)
    (db : Db) (st : SessionStore) (sst : SSOStore) (email password : String)
    (client_id : Option String) (device_id : Option String)
    (device_info : List (String × String)) (ip_address : Option String)
    (fcm_token : Option String) (newSsoToken : String) (now : Nat) :
    SessionStore × SSOStore × Except AppError LoginResponse :=
  match UserQueries.get_by_email db email with
  | none => (st, sst, .error (.unauthorized "Email atau password salah"))
  | some user =>
    match AuthProviderQueries.get_by_provider_user_id db "email" email with
    | none => (st, sst, .error (.unauthorized "Email atau password salah"))
    | some auth_provider =>
      match auth_provider.password_hash with
      | none => (st, sst, .error (.unauthorized "Email atau password salah"))
      | some password_hash =>
        if !verify_password password password_hash then
          (st, sst, .error (.unauthorized "Email atau password salah"))
        else
          match ClientValidator.validate_client_access db user.id client_id with
          | .error e => (st, sst, .error e)
          | .ok appOpt =>
            let single_session :=
              match appOpt with
              | some app => app.single_session
              | none => false
            TokenHelper.create_login_response h hSso db st sst user client_id
              single_session device_id device_info ip_address fcm_token
              newSsoToken now

/-! ## Concrete fixtures for counterexamples and witnesses -/

/-- A concrete stand-in hash over token claims, used to instantiate the
abstract SHA-256 parameter on concrete inputs. -/
def specHash (t : TokenClaims) : String :=
  t.sub ++ "|" ++ t.role ++ "|" ++ pyStr t.client_id ++ "|" ++
    pyStr t.device_id ++ "|" ++ toString t.iat ++ "|" ++ toString t.exp ++
    "|" ++ t.type.str

/-- A concrete stand-in hash over SSO token strings. -/
def strHash (s : String) : String := "sha256-" ++ s

/-- Insert a session record together with both index entries, as a wellformed
cache state produced by earlier logins. -/
def putSession (st : SessionStore) (u c d : String) (rec : SessionData) :
    SessionStore :=
  { sessions := fupd st.sessions (u, c, d) (some rec)
    clientSessions := fupd st.clientSessions (u, c)
      (sadd (st.clientSessions (u, c)) d)
    userSessions := fupd st.userSessions u
      (sadd (st.userSessions u) (c ++ ":" ++ d)) }

def mkRec (u c d hv : String) (act : Nat) : SessionData :=
  { user_id := u, client_id := c, device_id := some d,
    refresh_token_hash := hv, created_at := 0, last_activity := act }

def appHris : Application :=
  { id := "app-1", name := "HRIS", code := "hris", is_active := true,
    single_session := false }

def userAlice : User :=
  { id := "u1", name := "Alice", email := some "a@x.io" }

def userMallory : User :=
  { id := "u2", name := "Mallory", email := some "m@x.io",
    status := "deleted" }

/-- Database for the refresh-path fixtures: Alice exists but is linked to no
application. -/
def dbNoApps : Db :=
  { users := [userAlice], apps := [appHris], user_applications := [],
    auth_providers := [] }

/-- Database in which Alice is linked to the active `hris` application and
owns an email binding. -/
def dbAlice : Db :=
  { users := [userAlice], apps := [appHris],
    user_applications := [("u1", "app-1")],
    auth_providers :=
      [{ user_id := "u1", provider := "email",
         provider_user_id := "a@x.io", password_hash := some "pw" }] }

/-- Database containing only a user whose `status` is "deleted" but whose
soft-delete timestamp is `NULL`, with a valid email binding. -/
def dbMallory : Db :=
  { users := [userMallory], apps := [], user_applications := [],
    auth_providers :=
      [{ user_id := "u2", provider := "email",
         provider_user_id := "m@x.io", password_hash := some "pw" }] }

/-- A still-valid refresh token bound to `(u1, hris, d1)`. -/
def tokHris : TokenClaims :=
  { sub := "u1", role := "user", name := some "Alice", type := .refresh,
    exp := 5184000, iat := 0, client_id := some "hris",
    device_id := some "d1" }

/-- Cache holding exactly the session backing `tokHris`. -/
def stHris : SessionStore :=
  putSession SessionStore.empty "u1" "hris" "d1"
    (mkRec "u1" "hris" "d1" (specHash tokHris) 0)

/-- Cache with sessions on two devices `d1`, `d2` for `(u1, kiosk)`. -/
def stTwoDevices : SessionStore :=
  putSession
    (putSession SessionStore.empty "u1" "kiosk" "d1"
      (mkRec "u1" "kiosk" "d1" "h1" 1))
    "u1" "kiosk" "d2" (mkRec "u1" "kiosk" "d2" "h2" 2)

/-- Cache with `MAX_ACTIVE_SESSIONS` sessions `d1..d5` for `(u1, hris)`,
with strictly increasing last-activity (`d1` is the LRU session). -/
def stFiveDevices : SessionStore :=
  putSession
    (putSession
      (putSession
        (putSession
          (putSession SessionStore.empty "u1" "hris" "d1"
            (mkRec "u1" "hris" "d1" "h1" 1))
          "u1" "hris" "d2" (mkRec "u1" "hris" "d2" "h2" 2))
        "u1" "hris" "d3" (mkRec "u1" "hris" "d3" "h3" 3))
      "u1" "hris" "d4" (mkRec "u1" "hris" "d4" "h4" 4))
    "u1" "hris" "d5" (mkRec "u1" "hris" "d5" "h5" 5)

/-- An expired refresh token (for the verification-order counterexample). -/
def tokExpired : TokenClaims :=
  { sub := "u1", role := "user", type := .refresh, exp := 10, iat := 0 }

/-- An SSO store whose reverse pointer for the hash of "t" is stale: it
points at a user whose primary record stores a different hash. -/
def sstStale : SSOStore :=
  { sso := fupd (fun _ => none) "u1"
      (some { user_id := "u1", token_hash := "sha256-other",
              created_at := 0, last_activity := 0 })
    ssoTtl := fupd (fun _ => (-2 : Int)) "u1" (Int.ofNat SSO_TTL)
    ssoToken := fupd (fun _ => none) (strHash "t") (some "u1") }

/-- Plaintext-comparison password verifier used to instantiate the abstract
bcrypt check on concrete inputs. -/
def eqPassword (p stored : String) : Bool := p == stored

/-! ## Theorems -/

/-- C4 (counterexample): an *expired* refresh token presented to access
verification is rejected with the expiry error, not the wrong-type error —
so the `type` claim is not consulted before the other checks. -/
theorem claim_C4_counterexample :
    TokenService.verify_token tokExpired .access 100 =
      .error (.unauthorized "Invalid token: Signature has expired.") ∧
    TokenService.verify_token tokExpired .access 100 ≠
      .error (.unauthorized "Invalid token type, expected access") := by
  exact ⟨by decide, by decide⟩

/-- C4 (amended): `verify_token` checks signature and expiry first (inside
`jose.jwt.decode`); only an unexpired token has its `type` claim compared,
in which case a mismatch is rejected with the wrong-type error, and a match
returns the claim map. -/
theorem claim_C4_type_check_order (t : TokenClaims) (expected : TokenType)
    (now : Nat) :
    (t.exp < now →
      TokenService.verify_token t expected now =
        .error (.unauthorized "Invalid token: Signature has expired.")) ∧
    (¬ t.exp < now → t.type ≠ expected →
      TokenService.verify_token t expected now =
        .error (.unauthorized ("Invalid token type, expected " ++
          expected.str))) ∧
    (¬ t.exp < now → t.type = expected →
      TokenService.verify_token t expected now = .ok t) := by
  unfold TokenService.verify_token
  refine ⟨fun h1 => ?_, fun h1 h2 => ?_, fun h1 h2 => ?_⟩
  · simp [h1]
  · simp [h1, h2]
  · simp [h1, h2]

/-- C4 (witness): a fresh refresh token presented as an access token is
rejected with the wrong-type error. -/
theorem claim_C4_type_check_order_witness :
    ¬ tokExpired.exp < 5 ∧ tokExpired.type ≠ .access ∧
    TokenService.verify_token tokExpired .access 5 =
      .error (.unauthorized "Invalid token type, expected access") :=
  ⟨by decide, by decide,
    (claim_C4_type_check_order tokExpired .access 5).2.1 (by decide)
      (by decide)⟩

/-- C5 (code bug): `create_session` called without a `device_id` never
assigns a fresh opaque id.  It stores the primary record under the literal
f-string key component "None" with a `None` device id, then the redis
client raises `DataError` on `SADD`ing `None` into the per-client index, so
no id is returned and no index entry is written. -/
theorem claim_C5_device_id_not_generated :
    (SessionService.create_session specHash SessionStore.empty "u1" "hris"
        tokHris false none [] none none 0).2 =
      .error (.dataError "Invalid input of type NoneType") ∧
    (SessionService.create_session specHash SessionStore.empty "u1" "hris"
        tokHris false none [] none none 0).1.sessions ("u1", "hris", "None") =
      some { user_id := "u1", client_id := "hris", device_id := none,
             refresh_token_hash := specHash tokHris, created_at := 0,
             last_activity := 0 } ∧
    (SessionService.create_session specHash SessionStore.empty "u1" "hris"
        tokHris false none [] none none 0).1.clientSessions ("u1", "hris") =
      [] := by
  exact ⟨by decide, by decide, by decide⟩

/-- C10: `validate_sso_token` returns a record only when the reverse index
and the primary record agree on the token hash: a returned record comes
from a reverse pointer and a primary whose stored hash equals the hash of
the presented token, and a stale reverse pointer whose primary stores a
different hash never validates. -/
theorem claim_C10_sso_validate_agreement (h : String → String)
    (st : SSOStore) (sso_token : String) (now : Nat) :
    (∀ rec, (SSOSessionService.validate_sso_token h st sso_token now).2 =
        some rec →
      ∃ uid rec0, st.ssoToken (h sso_token) = some uid ∧
        st.sso uid = some rec0 ∧ rec0.token_hash = h sso_token ∧
        rec = { rec0 with last_activity := now }) ∧
    (∀ uid rec0, st.ssoToken (h sso_token) = some uid →
      st.sso uid = some rec0 → rec0.token_hash ≠ h sso_token →
      (SSOSessionService.validate_sso_token h st sso_token now).2 = none) := by
  constructor
  · intro rec hrec
    unfold SSOSessionService.validate_sso_token at hrec
    cases hx : st.ssoToken (h sso_token) with
    | none => simp [hx] at hrec
    | some uid =>
      simp only [hx] at hrec
      by_cases hu : uid = ""
      · simp [hu] at hrec
      · simp only [if_neg hu] at hrec
        cases hs : SSOSessionService.get_sso_session_by_user st uid with
        | none => simp [hs] at hrec
        | some session =>
          simp only [hs] at hrec
          by_cases hh : session.token_hash = h sso_token
          · rw [if_neg (not_not_intro hh)] at hrec
            exact ⟨uid, session, rfl, hs, hh, (Option.some.inj hrec).symm⟩
          · simp [hh] at hrec
  · intro uid rec0 hx hs hh
    unfold SSOSessionService.validate_sso_token
      SSOSessionService.get_sso_session_by_user
    by_cases hu : uid = ""
    · simp [hx, hu]
    · simp [hx, hu, hs, hh]

/-- C10 (witness): a stale reverse pointer (primary stores a different
hash) does not validate. -/
theorem claim_C10_sso_validate_agreement_witness :
    sstStale.ssoToken (strHash "t") = some "u1" ∧
    (SSOSessionService.validate_sso_token strHash sstStale "t" 7).2 = none :=
  ⟨by decide,
    (claim_C10_sso_validate_agreement strHash sstStale "t" 7).2 "u1"
      { user_id := "u1", token_hash := "sha256-other", created_at := 0,
        last_activity := 0 }
      (by decide) (by decide) (by decide)⟩

/-- C2 (counterexample): with `single_session = true` and live sessions on
devices `d1` and `d2`, a create for device `d1` does *not* fail with
`AlreadyLoggedInElsewhere` even though a session exists on the different
device `d2`; it succeeds and leaves the `d2` session in place. -/
theorem claim_C2_counterexample :
    (SessionService.create_session specHash stTwoDevices "u1" "kiosk"
        tokHris true (some "d1") [] none none 10).2 = .ok (some "d1") ∧
    (SessionService.create_session specHash stTwoDevices "u1" "kiosk"
        tokHris true (some "d1") [] none none 10).2 ≠
      .error (.badRequest
        "Anda sudah login di perangkat lain. Silakan logout terlebih dahulu.") ∧
    (SessionService.create_session specHash stTwoDevices "u1" "kiosk"
        tokHris true (some "d1") [] none none 10).1.sessions
        ("u1", "kiosk", "d2") = some (mkRec "u1" "kiosk" "d2" "h2" 2) := by
  exact ⟨by decide, by decide, by decide⟩

/-- C6 (counterexample): with `single_session = false`, five live sessions
`d1..d5` (LRU is `d1`) and a create for the new device `d6`, the oldest
session `d1` is *not* evicted: the create succeeds and all five old
sessions survive alongside the new one. -/
theorem claim_C6_counterexample :
    (SessionService.create_session specHash stFiveDevices "u1" "hris"
        tokHris false (some "d6") [] none none 10).2 = .ok (some "d6") ∧
    (SessionService.create_session specHash stFiveDevices "u1" "hris"
        tokHris false (some "d6") [] none none 10).1.sessions
        ("u1", "hris", "d1") = some (mkRec "u1" "hris" "d1" "h1" 1) ∧
    (SessionService.create_session specHash stFiveDevices "u1" "hris"
        tokHris false (some "d6") [] none none 10).1.sessions
        ("u1", "hris", "d6") ≠ none := by
  exact ⟨by decide, by decide, by decide⟩

/-- C7 (counterexample): a user whose `status` is "deleted" but whose
soft-delete timestamp is `NULL` *is* returned by the email lookup and can
complete an email login — the queries filter only on `deleted_at`. -/
theorem claim_C7_counterexample :
    UserQueries.get_by_email dbMallory "m@x.io" = some userMallory ∧
    userMallory.status = "deleted" ∧
    (EmailAuthService.login specHash strHash eqPassword dbMallory
        SessionStore.empty SSOStore.empty "m@x.io" "pw" none none [] none
        none "sso-1" 0).2.2.toOption.isSome = true := by
  exact ⟨by decide, by decide, by decide⟩

/-- C8 (counterexample): an SSO-only login (no `client_id`) returns a
`LoginResponse` whose `access_token` and `refresh_token` *are* present
(only `device_id` is absent), contradicting "present iff client_id was
supplied". -/
theorem claim_C8_counterexample :
    (TokenHelper.create_login_response specHash strHash dbAlice
        SessionStore.empty SSOStore.empty userAlice none false none [] none
        none "sso-1" 0).2.2.toOption.map
      (fun r => (r.access_token.isSome, r.refresh_token.isSome, r.device_id))
      = some (true, true, none) := by
  decide

/-- C3 (counterexample): refresh re-validates nothing about app access.
With a live session for `(u1, hris, d1)` but a user whose allowed-apps set
is empty, refresh succeeds and issues an access token with
`client_id = "hris"` and `allowed_apps = []`, violating
`c ∈ A ∨ c = "sso_portal"`. -/
theorem claim_C3_counterexample :
    (AuthService.refresh_token specHash dbNoApps stHris tokHris "d1"
        5).2.toOption.map
      (fun r => (r.access_token.client_id, r.access_token.allowed_apps)) =
      some (some "hris", some []) ∧
    ¬ ("hris" ∈ ([] : List String) ∨ "hris" = "sso_portal") := by
  exact ⟨by decide, by decide⟩

/-- C2 (amended): with `single_session = true`, create fails with
`AlreadyLoggedInElsewhere` (writing nothing) exactly when some session
exists for `(user, client)` and the requesting device holds none; when the
requesting device already holds a session, create succeeds and replaces it
— even if sessions on other devices also exist, which then survive. -/
theorem claim_C2_single_session_policy (h : TokenClaims → String)
    (st : SessionStore) (u c d : String) (tok : TokenClaims)
    (di : List (String × String)) (ip fcm : Option String) (now : Nat) :
    (0 < (SessionService.get_client_sessions st u c).length →
      ((SessionService.get_client_sessions st u c).map
        (·.device_id)).contains (some d) = false →
      SessionService.create_session h st u c tok true (some d) di ip fcm
        now =
        (st, .error (.badRequest
          "Anda sudah login di perangkat lain. Silakan logout terlebih dahulu."))) ∧
    (((SessionService.get_client_sessions st u c).map
        (·.device_id)).contains (some d) = true →
      (SessionService.create_session h st u c tok true (some d) di ip fcm
          now).2 = .ok (some d) ∧
      (SessionService.create_session h st u c tok true (some d) di ip fcm
          now).1.sessions (u, c, d) =
        some { user_id := u, client_id := c, device_id := some d,
               refresh_token_hash := h tok, device_info := di,
               ip_address := ip, fcm_token := fcm, created_at := now,
               last_activity := now } ∧
      ∀ d2, d2 ≠ d →
        (SessionService.create_session h st u c tok true (some d) di ip fcm
            now).1.sessions (u, c, d2) = st.sessions (u, c, d2)) := by
  constructor
  · intro hlen hmem
    have hall : ∀ x ∈ SessionService.get_client_sessions st u c,
        ¬ x.device_id = some d := by
      simpa using hmem
    unfold SessionService.create_session
    simp [hlen]
    exact hall
  · intro hmem
    have hex : ∃ a ∈ SessionService.get_client_sessions st u c,
        a.device_id = some d := by
      simpa using hmem
    have hnot : ¬ (0 < (SessionService.get_client_sessions st u c).length ∧
        ∀ x ∈ SessionService.get_client_sessions st u c,
          ¬ x.device_id = some d) := by
      rintro ⟨-, hall⟩
      obtain ⟨a, ha, hda⟩ := hex
      exact hall a ha hda
    refine ⟨?_, ?_, ?_⟩
    · unfold SessionService.create_session
      simp [hnot, hex, SessionService.delete_client_device_session]
    · unfold SessionService.create_session
      simp [hnot, hex, SessionService.delete_client_device_session, fupd,
        pyStr]
    · intro d2 hd2
      unfold SessionService.create_session
      simp [hnot, hex, SessionService.delete_client_device_session, fupd,
        pyStr, Prod.ext_iff, hd2]

/-- C2 (witness): on the two-device store the create on a fresh device is
rejected; on a store whose only session is the requesting device the create
succeeds. -/
theorem claim_C2_single_session_policy_witness :
    (0 < (SessionService.get_client_sessions stTwoDevices "u1" "kiosk").length ∧
      SessionService.create_session specHash stTwoDevices "u1" "kiosk"
        tokHris true (some "d9") [] none none 10 =
        (stTwoDevices, .error (.badRequest
          "Anda sudah login di perangkat lain. Silakan logout terlebih dahulu."))) ∧
    (SessionService.create_session specHash stHris "u1" "hris" tokHris true
        (some "d1") [] none none 10).2 = .ok (some "d1") :=
  ⟨⟨by decide,
    (claim_C2_single_session_policy specHash stTwoDevices "u1" "kiosk" "d9"
      tokHris [] none none 10).1 (by decide) (by decide)⟩,
    ((claim_C2_single_session_policy specHash stHris "u1" "hris" "d1"
      tokHris [] none none 10).2 (by decide)).1⟩

/-- C6 (amended): with `single_session = false` and the `(user, client)`
pair at or above `MAX_ACTIVE_SESSIONS` live sessions, create deletes only
the session of the *requesting* device id (a no-op for a new device) and
inserts the new session; no other session — in particular not the
least-recently-active one — is evicted, so the session count can exceed the
configured maximum. -/
theorem claim_C6_no_lru_eviction (h : TokenClaims → String)
    (st : SessionStore) (u c d : String) (tok : TokenClaims)
    (di : List (String × String)) (ip fcm : Option String) (now : Nat)
    (hfull : MAX_ACTIVE_SESSIONS ≤
      (SessionService.get_client_sessions st u c).length) :
    (SessionService.create_session h st u c tok false (some d) di ip fcm
        now).2 = .ok (some d) ∧
    (SessionService.create_session h st u c tok false (some d) di ip fcm
        now).1.sessions (u, c, d) =
      some { user_id := u, client_id := c, device_id := some d,
             refresh_token_hash := h tok, device_info := di,
             ip_address := ip, fcm_token := fcm, created_at := now,
             last_activity := now } ∧
    ∀ d2, d2 ≠ d →
      (SessionService.create_session h st u c tok false (some d) di ip fcm
          now).1.sessions (u, c, d2) = st.sessions (u, c, d2) := by
  refine ⟨?_, ?_, ?_⟩
  · unfold SessionService.create_session
    simp [hfull, SessionService.delete_client_device_session]
  · unfold SessionService.create_session
    simp [hfull, SessionService.delete_client_device_session, fupd, pyStr]
  · intro d2 hd2
    unfold SessionService.create_session
    simp [hfull, SessionService.delete_client_device_session, fupd, pyStr,
      Prod.ext_iff, hd2]

/-- C6 (witness): at the five-session cap, a create for the new device `d6`
succeeds and leaves the least-recently-active session `d1` in place. -/
theorem claim_C6_no_lru_eviction_witness :
    MAX_ACTIVE_SESSIONS ≤
      (SessionService.get_client_sessions stFiveDevices "u1" "hris").length ∧
    (SessionService.create_session specHash stFiveDevices "u1" "hris"
        tokHris false (some "d6") [] none none 10).1.sessions
        ("u1", "hris", "d1") = stFiveDevices.sessions ("u1", "hris", "d1") :=
  ⟨by decide,
    (claim_C6_no_lru_eviction specHash stFiveDevices "u1" "hris" "d6"
      tokHris [] none none 10 (by decide)).2.2 "d1" (by decide)⟩

/-- C7 (amended): every authentication-path query filters on the
soft-delete timestamp: users returned by id or email lookup have
`deleted_at = NULL` (and match the key), and a returned auth-provider
binding belongs to a user with `deleted_at = NULL`.  The `status` column is
not part of any of these filters. -/
theorem claim_C7_soft_delete_filter (db : Db) :
    (∀ i u, UserQueries.get_by_id db i = some u →
      u.deleted_at = none ∧ u.id = i) ∧
    (∀ em u, UserQueries.get_by_email db em = some u →
      u.deleted_at = none ∧ u.email = some em) ∧
    (∀ p pid ap,
      AuthProviderQueries.get_by_provider_user_id db p pid = some ap →
      ∃ u0, u0 ∈ db.users ∧ u0.id = ap.user_id ∧ u0.deleted_at = none) := by
  refine ⟨?_, ?_, ?_⟩
  · intro i u hq
    have hp := List.find?_some hq
    simp only [Bool.and_eq_true, beq_iff_eq] at hp
    exact ⟨hp.2, hp.1⟩
  · intro em u hq
    have hp := List.find?_some hq
    simp only [Bool.and_eq_true, beq_iff_eq] at hp
    exact ⟨hp.2, hp.1⟩
  · intro p pid ap hq
    have hp := List.find?_some hq
    simp only [Bool.and_eq_true, beq_iff_eq, List.any_eq_true] at hp
    obtain ⟨-, u0, hu0, hid, hdel⟩ := hp
    exact ⟨u0, hu0, hid, hdel⟩

/-- C7 (witness): the email lookup applied to a live fixture returns a user
with a null soft-delete timestamp. -/
theorem claim_C7_soft_delete_filter_witness :
    UserQueries.get_by_email dbAlice "a@x.io" = some userAlice ∧
    userAlice.deleted_at = none :=
  ⟨by decide,
    ((claim_C7_soft_delete_filter dbAlice).2.1 "a@x.io" userAlice
      (by decide)).1⟩

/-- A successful `create_session` returns exactly the caller-supplied
device id, which is necessarily present (a `None` device id errors out in
the index `SADD`). -/
theorem create_session_ok_shape (h : TokenClaims → String)
    (st : SessionStore) (u c : String) (tok : TokenClaims) (ss : Bool)
    (dev : Option String) (di : List (String × String))
    (ip fcm : Option String) (now : Nat) (v : Option String)
    (hok : (SessionService.create_session h st u c tok ss dev di ip fcm
      now).2 = .ok v) :
    v = dev ∧ dev ≠ none := by
  unfold SessionService.create_session at hok
  split at hok
  · simp [apply_ite Prod.snd] at hok
    split at hok <;> simp at hok
  · simp [apply_ite Prod.snd] at hok
    split at hok
    · simp at hok
    · injection hok with hok
      exact ⟨hok.symm, by simp⟩

/-- C8 (amended): in every successful login outcome the `access_token` and
`refresh_token` fields are present (also for SSO-only logins, where they
are the portal tokens); the `device_id` field is absent exactly for
SSO-only logins, and for app logins it is the session store's effective
device id, i.e. the caller-supplied one. -/
theorem claim_C8_outcome_fields (h : TokenClaims → String)
    (hSso : String → String) (db : Db) (st : SessionStore) (sst : SSOStore)
    (user : User) (client_id : Option String) (single : Bool)
    (dev : Option String) (di : List (String × String))
    (ip fcm : Option String) (nt : String) (now : Nat)
    (resp : LoginResponse)
    (hok : (TokenHelper.create_login_response h hSso db st sst user
      client_id single dev di ip fcm nt now).2.2 = .ok resp) :
    resp.access_token.isSome = true ∧ resp.refresh_token.isSome = true ∧
    (client_id = none → resp.device_id = none) ∧
    (∀ cid, client_id = some cid → resp.device_id = dev ∧ dev ≠ none) := by
  cases client_id with
  | none =>
    unfold TokenHelper.create_login_response at hok
    simp only [Except.ok.injEq] at hok
    subst hok
    simp
  | some cid =>
    unfold TokenHelper.create_login_response at hok
    simp only at hok
    rcases hcs : SessionService.create_session h st user.id cid
        (TokenService.create_refresh_token user.id user.role
          (some user.name) (some cid) none now) single dev di ip fcm now
      with ⟨st1, exc⟩
    rw [hcs] at hok
    cases exc with
    | error e => simp at hok
    | ok dv =>
      simp only [Except.ok.injEq] at hok
      subst hok
      have hshape := create_session_ok_shape h st user.id cid
        (TokenService.create_refresh_token user.id user.role
          (some user.name) (some cid) none now) single dev di ip fcm now dv
        (by rw [hcs])
      refine ⟨rfl, rfl, by simp, ?_⟩
      intro cid2 hcid2
      exact ⟨hshape.1, hshape.2⟩

/-- C8 (witness): a concrete SSO-only login outcome with both token fields
present and no device id. -/
theorem claim_C8_outcome_fields_witness :
    (TokenHelper.create_login_response specHash strHash dbNoApps
        SessionStore.empty SSOStore.empty userAlice none false none [] none
        none "sso-1" 0).2.2.toOption.isSome = true ∧
    ((TokenHelper.create_login_response specHash strHash dbNoApps
        SessionStore.empty SSOStore.empty userAlice none false none [] none
        none "sso-1" 0).2.2.toOption.map
      (fun r => r.access_token.isSome)) = some true := by
  refine ⟨by decide, ?_⟩
  rcases hok : (TokenHelper.create_login_response specHash strHash dbNoApps
      SessionStore.empty SSOStore.empty userAlice none false none [] none
      none "sso-1" 0).2.2 with e | resp
  · have hh : (TokenHelper.create_login_response specHash strHash dbNoApps
        SessionStore.empty SSOStore.empty userAlice none false none [] none
        none "sso-1" 0).2.2.toOption.isSome = true := by decide
    rw [hok] at hh
    simp [Except.toOption] at hh
  · have := (claim_C8_outcome_fields specHash strHash dbNoApps
      SessionStore.empty SSOStore.empty userAlice none false none [] none
      none "sso-1" 0 resp hok).1
    simp [hok, Except.toOption, this]

/-- C9: an SSO-only login touches no application-session key and issues a
refresh token with neither `client_id` nor `device_id`; refreshing any
token without a `client_id` claim resolves the client to the reserved
`sso_portal` sentinel, and since no session key is held under that client,
the refresh always fails with a 401 Unauthorized (`InvalidToken`) and
leaves the store unchanged. -/
theorem claim_C9_sso_only_refresh_fails (h : TokenClaims → String)
    (hSso : String → String) (db : Db) (st : SessionStore) (sst : SSOStore)
    (user : User) (single : Bool) (dev : Option String)
    (di : List (String × String)) (ip fcm : Option String) (nt : String)
    (now : Nat) :
    (TokenHelper.create_login_response h hSso db st sst user none single dev
        di ip fcm nt now).1 = st ∧
    (∀ resp, (TokenHelper.create_login_response h hSso db st sst user none
        single dev di ip fcm nt now).2.2 = .ok resp →
      resp.refresh_token = some (TokenService.create_refresh_token user.id
        user.role (some user.name) none none now) ∧
      (TokenService.create_refresh_token user.id user.role (some user.name)
        none none now).client_id = none ∧
      (TokenService.create_refresh_token user.id user.role (some user.name)
        none none now).device_id = none) ∧
    (∀ (T : TokenClaims) (st2 : SessionStore) (dev2 : String) (now2 : Nat),
      T.client_id = none →
      (∀ d2, st2.sessions (T.sub, "sso_portal", d2) = none) →
      ∃ msg, AuthService.refresh_token h db st2 T dev2 now2 =
        (st2, .error (.unauthorized msg))) := by
  refine ⟨rfl, ?_, ?_⟩
  · intro resp hok
    unfold TokenHelper.create_login_response at hok
    simp only [Except.ok.injEq] at hok
    subst hok
    exact ⟨rfl, rfl, rfl⟩
  · intro T st2 dev2 now2 hcid hns
    unfold AuthService.refresh_token
    rcases hv : TokenService.verify_token T .refresh now2 with e | payload
    · have he : ∃ m, e = .unauthorized m := by
        unfold TokenService.verify_token at hv
        split at hv
        · exact ⟨_, (Except.error.inj hv).symm⟩
        · split at hv
          · exact ⟨_, (Except.error.inj hv).symm⟩
          · simp at hv
      obtain ⟨m, rfl⟩ := he
      exact ⟨m, rfl⟩
    · have hpt : payload = T := by
        unfold TokenService.verify_token at hv
        split at hv
        · simp at hv
        · split at hv
          · simp at hv
          · exact (Except.ok.inj hv).symm
      subst hpt
      by_cases hsub : payload.sub = ""
      · exact ⟨"Invalid token payload: missing user_id", by simp [hsub]⟩
      · by_cases hdev : (strTruthy payload.device_id &&
          decide (pyStr payload.device_id ≠ dev2)) = true
        · simp only [Bool.and_eq_true, decide_eq_true_eq] at hdev
          exact ⟨"Device ID mismatch", by simp [hsub, hdev.1, hdev.2]⟩
        · simp only [Bool.and_eq_true, decide_eq_true_eq] at hdev
          refine ⟨"Invalid refresh token or session expired", ?_⟩
          simp [hsub, hdev, hcid, strTruthy,
            SessionService.validate_refresh_token, SessionService.get_session,
            hns]
          intro ha
          by_contra hb
          exact hdev ⟨by simpa [strTruthy] using ha, hb⟩

/-- C9 (witness): the concrete portal refresh token carries no client id,
and refreshing it against an empty session store fails with a 401. -/
theorem claim_C9_sso_only_refresh_fails_witness :
    (TokenService.create_refresh_token "u1" "user" (some "Alice") none none
      0).client_id = none ∧
    ∃ msg, AuthService.refresh_token specHash dbNoApps SessionStore.empty
      (TokenService.create_refresh_token "u1" "user" (some "Alice") none
        none 0) "d7" 1 =
      (SessionStore.empty, .error (.unauthorized msg)) :=
  ⟨rfl,
    (claim_C9_sso_only_refresh_fails specHash strHash dbNoApps
      SessionStore.empty SSOStore.empty userAlice false none [] none none
      "sso-1" 0).2.2
      (TokenService.create_refresh_token "u1" "user" (some "Alice") none
        none 0)
      SessionStore.empty "d7" 1 rfl (fun _ => rfl)⟩

/-- A successful user reload by id matches the key and is not
soft-deleted. -/
theorem getById_some (db : Db) (i : String) (u : User)
    (hq : UserQueries.get_by_id db i = some u) :
    u.id = i ∧ u.deleted_at = none := by
  have hp := List.find?_some hq
  simp only [Bool.and_eq_true, beq_iff_eq] at hp
  exact hp

/-- A successful application lookup by code is a live row of the
`applications` table carrying that code. -/
theorem get_by_code_some (db : Db) (c : String) (app : Application)
    (hq : ApplicationQueries.get_by_code db c = some app) :
    app ∈ db.apps ∧ app.code = c ∧ app.deleted_at = none := by
  refine ⟨List.mem_of_find?_eq_some hq, ?_⟩
  have hp := List.find?_some hq
  simp only [Bool.and_eq_true, beq_iff_eq] at hp
  exact hp

/-- Membership in the user-applications join: the row is in the table and
linked to the user. -/
theorem mem_user_apps (db : Db) (uid : String) (a : Application)
    (ha : a ∈ ApplicationQueries.get_user_applications db uid) :
    a ∈ db.apps ∧ db.user_applications.contains (uid, a.id) = true ∧
      a.deleted_at = none := by
  unfold ApplicationQueries.get_user_applications at ha
  rw [List.mem_filter] at ha
  obtain ⟨hmem, hp⟩ := ha
  simp only [Bool.and_eq_true, beq_iff_eq] at hp
  exact ⟨hmem, hp.1, hp.2⟩

/-- If an active application row is linked to the user (membership checked
by id against the join query, with unique application ids), its code
appears in the allowed-apps code list extracted for the user. -/
theorem code_in_allowed (db : Db) (user : User) (app : Application)
    (hWF : db.appsWF) (happ : app ∈ db.apps) (hact : app.is_active = true)
    (hcont : ((ApplicationQueries.get_user_applications db user.id).map
      (·.id)).contains app.id = true) :
    app.code ∈ (TokenHelper.extract_allowed_apps_from_user db user).2 := by
  have hex : ∃ a ∈ ApplicationQueries.get_user_applications db user.id,
      a.id = app.id := by
    simpa using hcont
  obtain ⟨a, ha, hid⟩ := hex
  have hmem := mem_user_apps db user.id a ha
  have haeq : a = app := hWF a hmem.1 app happ hid
  subst haeq
  unfold TokenHelper.extract_allowed_apps_from_user
  have hlink : a ∈ User.applications db user := by
    unfold User.applications
    rw [List.mem_filter]
    exact ⟨hmem.1, hmem.2.1⟩
  have hfil : a ∈ (User.applications db user).filter (·.is_active) := by
    rw [List.mem_filter]
    exact ⟨hlink, hact⟩
  exact List.mem_map_of_mem (·.code) hfil

/-- A successful client-access validation for a supplied client id returns
the live, active application with that code, linked to the user. -/
theorem validate_client_access_ok (db : Db) (uid cid : String)
    (appOpt : Option Application)
    (hv : ClientValidator.validate_client_access db uid (some cid) =
      .ok appOpt) :
    ∃ app, appOpt = some app ∧
      ApplicationQueries.get_by_code db cid = some app ∧
      app.is_active = true ∧
      ((ApplicationQueries.get_user_applications db uid).map
        (·.id)).contains app.id = true := by
  unfold ClientValidator.validate_client_access at hv
  simp only at hv
  rcases hq : ApplicationQueries.get_by_code db cid with _ | app
  · rw [hq] at hv; simp at hv
  · rw [hq] at hv
    cases hact : app.is_active with
    | false => simp [hact] at hv
    | true =>
      by_cases hcont : ((ApplicationQueries.get_user_applications db
          uid).map (·.id)).contains app.id = true
      · simp only [hact, hcont, Bool.not_true, Bool.false_eq_true,
          if_false, ite_false, Except.ok.injEq] at hv
        exact ⟨app, hv.symm, rfl, hact, hcont⟩
      · have hall : ∀ x ∈ ApplicationQueries.get_user_applications db uid,
            ¬x.id = app.id := by simpa using hcont
        simp [hact, hall] at hv
        rw [if_pos hall] at hv
        simp at hv

/-- The access token of a successful app-login outcome is the one signed
for the user's allowed-apps codes and the requested client. -/
theorem create_login_response_ok_access (h : TokenClaims → String)
    (hSso : String → String) (db : Db) (st : SessionStore) (sst : SSOStore)
    (user : User) (cid : String) (ss : Bool) (dev : Option String)
    (di : List (String × String)) (ip fcm : Option String) (nt : String)
    (now : Nat) (resp : LoginResponse)
    (hok : (TokenHelper.create_login_response h hSso db st sst user
      (some cid) ss dev di ip fcm nt now).2.2 = .ok resp) :
    resp.access_token = some (TokenService.create_access_token user.id
      user.role (some user.name) user.email
      (user.avatar_path.map generate_signed_url_for_path)
      (some (TokenHelper.extract_allowed_apps_from_user db user).2)
      (some cid) now) := by
  unfold TokenHelper.create_login_response at hok
  simp only at hok
  rcases hcs : SessionService.create_session h st user.id cid
      (TokenService.create_refresh_token user.id user.role (some user.name)
        (some cid) none now) ss dev di ip fcm now with ⟨st1, exc⟩
  rw [hcs] at hok
  cases exc with
  | error e => simp at hok
  | ok dv =>
    simp only [Except.ok.injEq] at hok
    subst hok
    rfl

/-- The access token of a successful SSO-exchange outcome is the one signed
for the user's allowed-apps codes and the requested client. -/
theorem create_app_tokens_ok_access (h : TokenClaims → String) (db : Db)
    (st : SessionStore) (user : User) (cid sso : String) (ss : Bool)
    (dev : Option String) (di : List (String × String))
    (ip fcm : Option String) (now : Nat) (resp : LoginResponse)
    (hok : (TokenHelper.create_app_tokens_for_exchange h db st user cid sso
      ss dev di ip fcm now).2 = .ok resp) :
    resp.access_token = some (TokenService.create_access_token user.id
      user.role (some user.name) user.email
      (user.avatar_path.map generate_signed_url_for_path)
      (some (TokenHelper.extract_allowed_apps_from_user db user).2)
      (some cid) now) := by
  unfold TokenHelper.create_app_tokens_for_exchange at hok
  simp only at hok
  rcases hcs : SessionService.create_session h st user.id cid
      (TokenService.create_refresh_token user.id user.role (some user.name)
        (some cid) none now) ss dev di ip fcm now with ⟨st1, exc⟩
  rw [hcs] at hok
  cases exc with
  | error e => simp at hok
  | ok dv =>
    simp only [Except.ok.injEq] at hok
    subst hok
    rfl

/-- C3 (amended): access tokens issued by email login and by SSO-exchange
satisfy the invariant — when a client id `c` is supplied and the flow
succeeds, the issued access token carries `client_id = c` and an
`allowed_apps` list containing `c` (the access gate enforces membership).
The refresh path does not re-validate app access (see the
counterexample). -/
theorem claim_C3_client_in_allowed_apps (h : TokenClaims → String)
    (hSso : String → String) (vp : String → String → Bool) (db : Db)
    (st : SessionStore) (sst : SSOStore) (hWF : db.appsWF) :
    (∀ email pwd cid dev di ip fcm nt now resp,
      (EmailAuthService.login h hSso vp db st sst email pwd (some cid) dev
        di ip fcm nt now).2.2 = .ok resp →
      ∃ tk, resp.access_token = some tk ∧ tk.client_id = some cid ∧
        ∃ A, tk.allowed_apps = some A ∧ cid ∈ A) ∧
    (∀ sso_token cid dev di ip fcm now resp,
      (AuthService.exchange_sso_token h hSso db st sst sso_token cid dev di
        ip fcm now).2.2 = .ok resp →
      ∃ tk, resp.access_token = some tk ∧ tk.client_id = some cid ∧
        ∃ A, tk.allowed_apps = some A ∧ cid ∈ A) := by
  constructor
  · intro email pwd cid dev di ip fcm nt now resp hok
    unfold EmailAuthService.login at hok
    rcases hu : UserQueries.get_by_email db email with _ | user
    · rw [hu] at hok; simp at hok
    · rw [hu] at hok
      simp only at hok
      rcases hap : AuthProviderQueries.get_by_provider_user_id db "email"
          email with _ | ap
      · rw [hap] at hok; simp at hok
      · rw [hap] at hok
        simp only at hok
        rcases hph : ap.password_hash with _ | ph
        · rw [hph] at hok; simp at hok
        · rw [hph] at hok
          simp only at hok
          cases hvp : vp pwd ph with
          | false => simp [hvp] at hok
          | true =>
            simp only [hvp, Bool.not_true, Bool.false_eq_true, if_false,
              ite_false] at hok
            rcases hvv : ClientValidator.validate_client_access db user.id
                (some cid) with e | appOpt
            · rw [hvv] at hok; simp at hok
            · rw [hvv] at hok
              obtain ⟨app, rfl, hq, hact, hcont⟩ :=
                validate_client_access_ok db user.id cid appOpt hvv
              have hacc := create_login_response_ok_access h hSso db st sst
                user cid app.single_session dev di ip fcm nt now resp hok
              obtain ⟨happ, hcode, -⟩ := get_by_code_some db cid app hq
              refine ⟨_, hacc, rfl, _, rfl, ?_⟩
              have hmemc := code_in_allowed db user app hWF happ hact hcont
              rwa [hcode] at hmemc
  · intro sso_token cid dev di ip fcm now resp hok
    unfold AuthService.exchange_sso_token at hok
    rcases hvt : SSOSessionService.validate_sso_token hSso sst sso_token now
      with ⟨sst1, opt⟩
    rw [hvt] at hok
    cases opt with
    | none => simp at hok
    | some sess =>
      simp only at hok
      rcases hu : UserQueries.get_by_id db sess.user_id with _ | user
      · rw [hu] at hok; simp at hok
      · rw [hu] at hok
        simp only at hok
        rcases hq : ApplicationQueries.get_by_code db cid with _ | app
        · rw [hq] at hok; simp at hok
        · rw [hq] at hok
          simp only at hok
          cases hact : app.is_active with
          | false => simp [hact] at hok
          | true =>
            by_cases hcont : ((ApplicationQueries.get_user_applications db
                sess.user_id).map (·.id)).contains app.id = true
            · simp only [hact, hcont, Bool.not_true, Bool.false_eq_true,
                if_false, ite_false] at hok
              have hacc := create_app_tokens_ok_access h db st user cid
                sso_token app.single_session dev di ip fcm now resp hok
              obtain ⟨happ, hcode, -⟩ := get_by_code_some db cid app hq
              have hid := (getById_some db sess.user_id user hu).1
              rw [← hid] at hcont
              refine ⟨_, hacc, rfl, _, rfl, ?_⟩
              have hmemc := code_in_allowed db user app hWF happ hact hcont
              rwa [hcode] at hmemc
            · simp [hact, hcont] at hok
              have hall : ∀ x ∈ ApplicationQueries.get_user_applications db
                  sess.user_id, ¬x.id = app.id := by simpa using hcont
              rw [if_pos hall] at hok
              simp at hok

/-- C3 (witness): a concrete email login into `hris` issues an access token
whose `client_id` lies in its `allowed_apps`. -/
theorem claim_C3_client_in_allowed_apps_witness :
    dbAlice.appsWF ∧
    ∃ tk, ((EmailAuthService.login specHash strHash eqPassword dbAlice
        SessionStore.empty SSOStore.empty "a@x.io" "pw" (some "hris")
        (some "d1") [] none none "sso-9" 0).2.2.toOption.bind
      (fun r => r.access_token)) = some tk ∧
      tk.client_id = some "hris" ∧
      ∃ A, tk.allowed_apps = some A ∧ "hris" ∈ A := by
  refine ⟨by decide, ?_⟩
  rcases hok : (EmailAuthService.login specHash strHash eqPassword dbAlice
      SessionStore.empty SSOStore.empty "a@x.io" "pw" (some "hris")
      (some "d1") [] none none "sso-9" 0).2.2 with e | resp
  · have hh : (EmailAuthService.login specHash strHash eqPassword dbAlice
        SessionStore.empty SSOStore.empty "a@x.io" "pw" (some "hris")
        (some "d1") [] none none "sso-9" 0).2.2.toOption.isSome = true := by
      decide
    rw [hok] at hh
    simp [Except.toOption] at hh
  · obtain ⟨tk, h1, h2, A, h3, h4⟩ :=
      (claim_C3_client_in_allowed_apps specHash strHash eqPassword dbAlice
        SessionStore.empty SSOStore.empty (by decide)).1 "a@x.io" "pw"
        "hris" (some "d1") [] none none "sso-9" 0 resp hok
    exact ⟨tk, by simp [hok, Except.toOption, h1], h2, A, h3, h4⟩

/-- C1: refresh-token rotation.  For a live session backing refresh token
`T`, one successful refresh returns a new refresh token `T1` (signed for
the reloaded user, same client and device, at the current instant) and
overwrites the session's stored hash with `SHA-256(T1)`; a second refresh
presenting the old `T` then fails with the `InvalidToken`-style 401, while
a refresh presenting `T1` with the same device id succeeds.  Hash
collision-freedom between `T` and `T1` (true of SHA-256 since the rotated
token differs, e.g. in `iat`/`exp`) is the explicit hypothesis `hcoll`. -/
theorem claim_C1_refresh_rotation (h : TokenClaims → String) (db : Db)
    (st : SessionStore) (T : TokenClaims) (u c d : String) (user : User)
    (rec : SessionData) (now : Nat)
    (hty : T.type = .refresh) (hexp : ¬ T.exp < now)
    (hsub : T.sub = u) (hu : u ≠ "")
    (hcid : T.client_id = some c) (hc : c ≠ "")
    (hdid : T.device_id = some d) (hd : d ≠ "")
    (hrec : st.sessions (u, c, d) = some rec)
    (hhash : rec.refresh_token_hash = h T)
    (huser : UserQueries.get_by_id db u = some user)
    (hcoll : h T ≠ h (TokenService.create_refresh_token user.id user.role
      (some user.name) (some c) (some d) now)) :
    (∃ resp, (AuthService.refresh_token h db st T d now).2 = .ok resp ∧
      resp.refresh_token = TokenService.create_refresh_token user.id
        user.role (some user.name) (some c) (some d) now) ∧
    (AuthService.refresh_token h db st T d now).1.sessions (u, c, d) =
      some { rec with
             last_activity := now
             refresh_token_hash := h (TokenService.create_refresh_token
               user.id user.role (some user.name) (some c) (some d) now) } ∧
    (AuthService.refresh_token h db
        (AuthService.refresh_token h db st T d now).1 T d now).2 =
      .error (.unauthorized "Invalid refresh token or session expired") ∧
    (∃ resp2, (AuthService.refresh_token h db
        (AuthService.refresh_token h db st T d now).1
        (TokenService.create_refresh_token user.id user.role
          (some user.name) (some c) (some d) now) d now).2 =
      .ok resp2) := by
  have hidu := (getById_some db u user huser).1
  have hver : TokenService.verify_token T .refresh now = .ok T := by
    unfold TokenService.verify_token
    rw [if_neg hexp, if_neg (by simp [hty])]
  have hval : SessionService.validate_refresh_token h st u c d T = true := by
    unfold SessionService.validate_refresh_token SessionService.get_session
    rw [hrec]
    simp [hhash]
  have hfirst : AuthService.refresh_token h db st T d now =
      ((SessionService.update_session h st u c d
          (some (TokenService.create_refresh_token user.id user.role
            (some user.name) (some c) (some d) now)) none now).1,
        .ok { access_token :=
                TokenService.create_access_token user.id user.role
                  (some user.name) user.email
                  (user.avatar_path.map generate_signed_url_for_path)
                  (some (TokenHelper.extract_allowed_apps_from_user db
                    user).2)
                  (some c) now
              refresh_token :=
                TokenService.create_refresh_token user.id user.role
                  (some user.name) (some c) (some d) now
              expires_in := ACCESS_TOKEN_EXPIRE_MINUTES * 60 }) := by
    unfold AuthService.refresh_token
    rw [hver]
    simp only [hsub, hcid, hdid]
    simp [strTruthy, pyStr, hc, hu, hval, huser]
  have hupd : (SessionService.update_session h st u c d
      (some (TokenService.create_refresh_token user.id user.role
        (some user.name) (some c) (some d) now)) none now).1.sessions
      (u, c, d) =
      some { rec with
             last_activity := now
             refresh_token_hash := h (TokenService.create_refresh_token
               user.id user.role (some user.name) (some c) (some d) now) }
      := by
    unfold SessionService.update_session SessionService.get_session
    rw [hrec]
    simp [fupd, strTruthy]
  have hval2 : SessionService.validate_refresh_token h
      (SessionService.update_session h st u c d
        (some (TokenService.create_refresh_token user.id user.role
          (some user.name) (some c) (some d) now)) none now).1 u c d T =
      false := by
    unfold SessionService.validate_refresh_token SessionService.get_session
    rw [hupd]
    simp only []
    exact beq_eq_false_iff_ne.mpr (Ne.symm hcoll)
  have hsecond : (AuthService.refresh_token h db
      (SessionService.update_session h st u c d
        (some (TokenService.create_refresh_token user.id user.role
          (some user.name) (some c) (some d) now)) none now).1 T d now).2 =
      .error (.unauthorized "Invalid refresh token or session expired") := by
    unfold AuthService.refresh_token
    rw [hver]
    simp only [hsub, hcid, hdid]
    simp [strTruthy, pyStr, hc, hu, hval2]
  have hexpT1 : ¬ ((TokenService.create_refresh_token user.id user.role
      (some user.name) (some c) (some d) now).exp < now) :=
    Nat.not_lt.mpr (Nat.le_add_right now _)
  have hverT1 : TokenService.verify_token (TokenService.create_refresh_token
      user.id user.role (some user.name) (some c) (some d) now) .refresh
      now = .ok (TokenService.create_refresh_token user.id user.role
        (some user.name) (some c) (some d) now) := by
    unfold TokenService.verify_token
    rw [if_neg hexpT1, if_neg (fun hne => hne rfl)]
  have hT1sub : (TokenService.create_refresh_token user.id user.role
      (some user.name) (some c) (some d) now).sub = user.id := rfl
  have hT1cid : (TokenService.create_refresh_token user.id user.role
      (some user.name) (some c) (some d) now).client_id = some c := by
    unfold TokenService.create_refresh_token
    simp [strTruthy, hc]
  have hT1did : (TokenService.create_refresh_token user.id user.role
      (some user.name) (some c) (some d) now).device_id = some d := by
    unfold TokenService.create_refresh_token
    simp [strTruthy, hd]
  have hvalT1 : SessionService.validate_refresh_token h
      (SessionService.update_session h st u c d
        (some (TokenService.create_refresh_token user.id user.role
          (some user.name) (some c) (some d) now)) none now).1 u c d
      (TokenService.create_refresh_token user.id user.role (some user.name)
        (some c) (some d) now) = true := by
    unfold SessionService.validate_refresh_token SessionService.get_session
    rw [hupd]
    simp
  have hthird : (AuthService.refresh_token h db
      (SessionService.update_session h st u c d
        (some (TokenService.create_refresh_token user.id user.role
          (some user.name) (some c) (some d) now)) none now).1
      (TokenService.create_refresh_token user.id user.role (some user.name)
        (some c) (some d) now) d now).2 =
      .ok { access_token :=
              TokenService.create_access_token user.id user.role
                (some user.name) user.email
                (user.avatar_path.map generate_signed_url_for_path)
                (some (TokenHelper.extract_allowed_apps_from_user db
                  user).2)
                (some c) now
            refresh_token :=
              TokenService.create_refresh_token user.id user.role
                (some user.name) (some c) (some d) now
            expires_in := ACCESS_TOKEN_EXPIRE_MINUTES * 60 } := by
    unfold AuthService.refresh_token
    rw [hverT1]
    simp only [hT1sub.trans hidu, hT1cid, hT1did]
    simp [strTruthy, pyStr, hc, hu, hvalT1, huser]
  refine ⟨⟨_, by rw [hfirst], rfl⟩, ?_, ?_, ?_⟩
  · rw [hfirst]
    exact hupd
  · rw [hfirst]
    exact hsecond
  · rw [hfirst]
    exact ⟨_, hthird⟩

/-- C1 (witness): the rotation chain on the concrete `(u1, hris, d1)`
session. -/
theorem claim_C1_refresh_rotation_witness :
    stHris.sessions ("u1", "hris", "d1") =
      some (mkRec "u1" "hris" "d1" (specHash tokHris) 0) ∧
    specHash tokHris ≠ specHash (TokenService.create_refresh_token "u1"
      "user" (some "Alice") (some "hris") (some "d1") 5) ∧
    (AuthService.refresh_token specHash dbAlice
        (AuthService.refresh_token specHash dbAlice stHris tokHris "d1"
          5).1 tokHris "d1" 5).2 =
      .error (.unauthorized "Invalid refresh token or session expired") ∧
    (∃ resp2, (AuthService.refresh_token specHash dbAlice
        (AuthService.refresh_token specHash dbAlice stHris tokHris "d1"
          5).1
        (TokenService.create_refresh_token "u1" "user" (some "Alice")
          (some "hris") (some "d1") 5) "d1" 5).2 = .ok resp2) := by
  have hmain := claim_C1_refresh_rotation specHash dbAlice stHris tokHris
    "u1" "hris" "d1" userAlice (mkRec "u1" "hris" "d1" (specHash tokHris) 0)
    5 (by decide) (by decide) (by decide) (by decide) (by decide)
    (by decide) (by decide) (by decide) (by decide) (by decide) (by decide)
    (by decide)
  obtain ⟨-, -, h3, h4⟩ := hmain
  exact ⟨by decide, by decide, h3, h4⟩

end SSOCore
